import Mathlib

/-
Verification of the Aya Wallet MCP server (imaad666/Aya-Wallet-MCP).

The development shallowly embeds the parts of the TypeScript sources that
the specification talks about:

* the tool dispatcher of src/index.ts: the static tool catalog served by
  the tools/list handler, and the tools/call handler (argument guard,
  switch over the tool name, try/catch boundary producing a text result);
* DeFiAggregator.findBestRate of src/tools/defi-aggregator.ts together
  with the hard-coded HeliSwap and Pangolin mock quotes;
* SaucerSwapTools.getQuote (slippage arithmetic on BigInt values).

JavaScript numbers are modelled as rationals (NaN, where it matters, as
the value none of an Option); BigInt values as Int with truncating
division (Int.tdiv); fallible code as Except String.
-/

namespace AyaWallet

/-- JavaScript value, as far as the dispatcher argument guard and the
handlers observe it: null, undefined, booleans, numbers, strings and
plain objects (field lists). -/
inductive JsVal : Type
  | vNull : JsVal
  | vUndefined : JsVal
  | vBool (b : Bool) : JsVal
  | vNum (q : ℚ) : JsVal
  | vStr (s : String) : JsVal
  | vObj (fields : List (String × JsVal)) : JsVal

/-- JavaScript truthiness: null, undefined, false, 0 and the empty string
are falsy, everything else (objects included) is truthy. -/
def jsTruthy : JsVal → Bool
  | .vNull => false
  | .vUndefined => false
  | .vBool b => b
  | .vNum q => q != 0
  | .vStr s => s != ""
  | .vObj _ => true

/-- The JavaScript typeof operator. Note that typeof null is "object". -/
def jsTypeof : JsVal → String
  | .vNull => "object"
  | .vUndefined => "undefined"
  | .vBool _ => "boolean"
  | .vNum _ => "number"
  | .vStr _ => "string"
  | .vObj _ => "object"

/-- An argument mapping: the field list of a plain JavaScript object. -/
abbrev Smap := List (String × JsVal)

/-- Property access args.key on an object: the value of the first field
with that key, or undefined when the key is absent. -/
def jsGet (m : Smap) (k : String) : JsVal :=
  match m.find? (fun p => p.1 == k) with
  | some p => p.2
  | none => .vUndefined

/-- Field list of an object value (empty for non-objects; the dispatcher
only reaches property access after its argument guard). -/
def jsFields : JsVal → Smap
  | .vObj fields => fields
  | _ => []

/-- One entry of the static tool catalog returned by the tools/list
handler of src/index.ts: name, description, the property names of the
inputSchema and its required list. -/
structure ToolDescriptor where
  name : String
  description : String
  properties : List String
  required : List String
deriving DecidableEq

/-- The static tool catalog, exactly as listed in the ListToolsRequestSchema
handler of src/index.ts (lines 39-171). -/
def toolCatalog : List ToolDescriptor :=
  [ { name := "hedera_get_balance",
      description := "Get HBAR balance for a Hedera account",
      properties := ["accountId"],
      required := ["accountId"] },
    { name := "hedera_transfer_hbar",
      description := "Transfer HBAR between Hedera accounts",
      properties := ["fromAccountId", "toAccountId", "amount", "memo"],
      required := ["fromAccountId", "toAccountId", "amount"] },
    { name := "saucerswap_get_quote",
      description := "Get swap quote from SaucerSwap",
      properties := ["tokenIn", "tokenOut", "amount", "slippageTolerance"],
      required := ["tokenIn", "tokenOut", "amount"] },
    { name := "saucerswap_execute_swap",
      description := "Execute token swap on SaucerSwap",
      properties := ["tokenIn", "tokenOut", "amount", "slippageTolerance", "recipient"],
      required := ["tokenIn", "tokenOut", "amount", "recipient"] },
    { name := "saucerswap_add_liquidity",
      description := "Add liquidity to SaucerSwap pool",
      properties := ["tokenA", "tokenB", "amountA", "amountB", "slippageTolerance"],
      required := ["tokenA", "tokenB", "amountA", "amountB"] },
    { name := "hts_create_token",
      description := "Create new HTS token",
      properties := ["name", "symbol", "decimals", "initialSupply", "treasury"],
      required := ["name", "symbol", "decimals", "initialSupply", "treasury"] },
    { name := "hts_mint_token",
      description := "Mint HTS tokens",
      properties := ["tokenId", "amount", "recipient"],
      required := ["tokenId", "amount", "recipient"] },
    { name := "defi_find_best_rate",
      description := "Find best swap rate across multiple DEXs",
      properties := ["tokenIn", "tokenOut", "amount"],
      required := ["tokenIn", "tokenOut", "amount"] },
    { name := "defi_optimize_portfolio",
      description := "Optimize DeFi portfolio for maximum yield",
      properties := ["walletAddress", "riskTolerance"],
      required := ["walletAddress"] } ]

/-- The names of the catalog entries, in catalog order. -/
def toolCatalogNames : List String := toolCatalog.map ToolDescriptor.name

/-- The tools/list handler: a pure constant function returning the
catalog (the handler closes over no mutable state). -/
def listOperations : Unit → List ToolDescriptor := fun _ => toolCatalog

/-- The downstream handler methods the dispatcher switch routes to, one
field per called method, with the arity used at the call site in
src/index.ts. Each may fail with a thrown error message. The payload type
is abstract: the dispatcher serializes it unchanged into the text of the
success result. -/
structure HandlerEnv (α : Type) where
  getBalance : JsVal → Except String α
  transferHBAR : JsVal → JsVal → JsVal → JsVal → Except String α
  getQuote : JsVal → JsVal → JsVal → JsVal → Except String α
  executeSwap : JsVal → JsVal → JsVal → JsVal → JsVal → Except String α
  addLiquidity : JsVal → JsVal → JsVal → JsVal → JsVal → Except String α
  createToken : JsVal → JsVal → JsVal → JsVal → JsVal → Except String α
  mintToken : JsVal → JsVal → JsVal → Except String α
  findBestRate : JsVal → JsVal → JsVal → Except String α
  optimizePortfolio : JsVal → JsVal → Except String α

/-- The switch over the tool name in the CallToolRequestSchema handler of
src/index.ts (lines 186-263): exact name match selecting one handler
call, including how each argument is read off the argument object; the
default case selects nothing. -/
def selectHandler {α : Type} (env : HandlerEnv α) (name : String) :
    Option (Smap → Except String α) :=
  if name = "hedera_get_balance" then
    some fun args => env.getBalance (jsGet args "accountId")
  else if name = "hedera_transfer_hbar" then
    some fun args => env.transferHBAR (jsGet args "fromAccountId")
      (jsGet args "toAccountId") (jsGet args "amount") (jsGet args "memo")
  else if name = "saucerswap_get_quote" then
    some fun args => env.getQuote (jsGet args "tokenIn") (jsGet args "tokenOut")
      (jsGet args "amount") (jsGet args "slippageTolerance")
  else if name = "saucerswap_execute_swap" then
    some fun args => env.executeSwap (jsGet args "tokenIn") (jsGet args "tokenOut")
      (jsGet args "amount") (jsGet args "slippageTolerance") (jsGet args "recipient")
  else if name = "saucerswap_add_liquidity" then
    some fun args => env.addLiquidity (jsGet args "tokenA") (jsGet args "tokenB")
      (jsGet args "amountA") (jsGet args "amountB") (jsGet args "slippageTolerance")
  else if name = "hts_create_token" then
    some fun args => env.createToken (jsGet args "name") (jsGet args "symbol")
      (jsGet args "decimals") (jsGet args "initialSupply") (jsGet args "treasury")
  else if name = "hts_mint_token" then
    some fun args => env.mintToken (jsGet args "tokenId") (jsGet args "amount")
      (jsGet args "recipient")
  else if name = "defi_find_best_rate" then
    some fun args => env.findBestRate (jsGet args "tokenIn") (jsGet args "tokenOut")
      (jsGet args "amount")
  else if name = "defi_optimize_portfolio" then
    some fun args => env.optimizePortfolio (jsGet args "walletAddress")
      (jsGet args "riskTolerance")
  else
    none

/-- The body of the try block of the tools/call handler: first the
argument guard (if args is falsy or typeof args is not "object", throw
"Invalid arguments provided"), then the switch; the default case throws
"Unknown tool: " followed by the name. -/
def dispatchCall {α : Type} (env : HandlerEnv α) (name : String) (args : JsVal) :
    Except String α :=
  if !jsTruthy args || !(jsTypeof args == "object") then
    .error "Invalid arguments provided"
  else
    match selectHandler env name with
    | some h => h (jsFields args)
    | none => .error ("Unknown tool: " ++ name)

/-- The invocation result envelope: the tools/call handler always returns
an ordinary content result; a success carries the handler payload, a
failure carries a text. No protocol-level fault is ever produced. -/
inductive InvocationResult (α : Type) : Type
  | success (payload : α) : InvocationResult α
  | failure (text : String) : InvocationResult α
deriving DecidableEq

/-- The complete tools/call handler of src/index.ts (lines 174-284): the
try block dispatches, the catch block (lines 273-283) converts any
thrown error into a result whose text is "Error: " followed by the
message. The function is total: no exception escapes the boundary. -/
def invoke {α : Type} (env : HandlerEnv α) (name : String) (args : JsVal) :
    InvocationResult α :=
  match dispatchCall env name args with
  | .ok r => .success r
  | .error e => .failure ("Error: " ++ e)

/-- Number.prototype.toFixed(6), on the rational value of a number: the
integer n for which n / 10^6 is nearest (ties towards the larger n, after
taking the sign out, per ECMA-262), read back as a rational. -/
def toFixed6 (q : ℚ) : ℚ :=
  if q < 0 then -((⌊(-q) * 1000000 + 1 / 2⌋ : ℚ) / 1000000)
  else (⌊q * 1000000 + 1 / 2⌋ : ℚ) / 1000000

/-- A surviving DEX quote, reduced to what findBestRate reads from it:
the source DEX and the numeric value parseFloat extracts from
quote.tokenOut.expectedAmount. -/
structure DexQuote where
  dex : String
  expectedAmount : ℚ
deriving DecidableEq

instance : Inhabited DexQuote := ⟨⟨"", 0⟩⟩

/-- The sort comparator of findBestRate, (a, b) => bAmount - aAmount: a
stays before b exactly when the expected amount of b does not exceed
that of a, i.e. the list is ordered by descending output amount.
Array.prototype.sort is a stable sort; the model sorts with the stable
insertion sort of the library under this relation. -/
def quoteGe (a b : DexQuote) : Prop :=
  b.expectedAmount ≤ a.expectedAmount

instance : DecidableRel quoteGe :=
  fun a b => inferInstanceAs (Decidable (b.expectedAmount ≤ a.expectedAmount))

instance : IsTotal DexQuote quoteGe :=
  ⟨fun a b => (le_total b.expectedAmount a.expectedAmount).imp id id⟩

instance : IsTrans DexQuote quoteGe :=
  ⟨fun _ _ _ hab hbc => le_trans hbc hab⟩

/-- The result record built by DeFiAggregator.findBestRate (lines
270-277): best quote, the (sorted) list of all surviving quotes, the
average rate and savings after toFixed(6), and the DEX count. The
timestamp field is omitted (wall-clock, not modelled). -/
@[ext]
structure BestRateResult where
  bestQuote : DexQuote
  allQuotes : List DexQuote
  averageRate : ℚ
  savings : ℚ
  dexCount : ℕ
deriving DecidableEq

/-- The surviving quotes: the fulfilled, non-null settled outcomes, in
settlement order (SaucerSwap, HeliSwap, Pangolin) --- the validQuotes
filter of findBestRate (lines 248-252). -/
def validQuotes (q1 q2 q3 : Option DexQuote) : List DexQuote :=
  List.filterMap id [q1, q2, q3]

/-- The success branch of findBestRate (lines 258-277), on a non-empty
survivor list: sort by descending output amount (Array.prototype.sort is
stable), take the first sorted quote as best, the unweighted mean of the
survivors as average, and best minus the unrounded average as savings;
averageRate and savings are stored after toFixed(6). -/
def bestRateOf (q : DexQuote) (qs : List DexQuote) : BestRateResult :=
  let sorted := List.insertionSort quoteGe (q :: qs)
  let averageRate := (sorted.map DexQuote.expectedAmount).sum / (sorted.length : ℚ)
  { bestQuote := sorted.headI,
    allQuotes := sorted,
    averageRate := toFixed6 averageRate,
    savings := toFixed6 (sorted.headI.expectedAmount - averageRate),
    dexCount := sorted.length }

/-- DeFiAggregator.findBestRate (src/tools/defi-aggregator.ts, lines
230-285) over the three settled quote outcomes (none models a rejected
promise or a null value, both removed by the validQuotes filter): if no
quote survived, the thrown "No valid quotes found from any DEX" is
rethrown by the catch block of the method with the prefix "Failed to
find best rate: "; otherwise the result is built from the survivors. -/
def findBestRate (q1 q2 q3 : Option DexQuote) : Except String BestRateResult :=
  match validQuotes q1 q2 q3 with
  | [] => .error "Failed to find best rate: No valid quotes found from any DEX"
  | q :: qs => .ok (bestRateOf q qs)

/-- A JavaScript number that may be NaN: none is NaN, some q is the
rational value. -/
abbrev JsNum := Option ℚ

/-- NaN-propagating addition. -/
def jsAdd : JsNum → JsNum → JsNum
  | some a, some b => some (a + b)
  | _, _ => none

/-- NaN-propagating subtraction. -/
def jsSub : JsNum → JsNum → JsNum
  | some a, some b => some (a - b)
  | _, _ => none

/-- NaN-propagating multiplication. -/
def jsMul : JsNum → JsNum → JsNum
  | some a, some b => some (a * b)
  | _, _ => none

/-- NaN-propagating division. Division by zero (which yields an infinity
in JavaScript, a value this model does not represent) is collapsed to
none; the aggregator only divides by a positive quote count, so the case
is unreachable there. -/
def jsDiv : JsNum → JsNum → JsNum
  | some a, some b => if b = 0 then none else some (a / b)
  | _, _ => none

/-- Comparison used to model the sort comparator on possibly-NaN values.
A NaN comparator result leaves the relative order of the pair
unspecified in JavaScript; the model keeps the pair in place (true). -/
def jsLeB : JsNum → JsNum → Bool
  | some a, some b => decide (a ≤ b)
  | _, _ => true

/-- Longest leading run of decimal digits of a character list, together
with the remainder. -/
def takeDigits : List Char → (List Char × List Char)
  | [] => ([], [])
  | c :: cs =>
    if c.isDigit then
      let (ds, rest) := takeDigits cs
      (c :: ds, rest)
    else ([], c :: cs)

/-- Value of a digit run, most significant first. -/
def digitsToNat (ds : List Char) : ℕ :=
  ds.foldl (fun n c => 10 * n + (c.toNat - 48)) 0

/-- parseFloat on plain decimal notation: skip leading spaces, an
optional sign, then the longest prefix matching digits, an optional
decimal point and more digits; NaN (none) when no digit was found.
Exponent notation and the Infinity literal, which no caller of this
code path produces, are not modelled. -/
def jsParseFloat (s : String) : JsNum :=
  let cs := s.data.dropWhile (fun c => c = ' ')
  let signAndRest : Bool × List Char :=
    match cs with
    | '-' :: rest => (true, rest)
    | '+' :: rest => (false, rest)
    | _ => (false, cs)
  let intAndRest := takeDigits signAndRest.2
  let fracDigits : List Char :=
    match intAndRest.2 with
    | '.' :: rest => (takeDigits rest).1
    | _ => []
  if intAndRest.1.isEmpty && fracDigits.isEmpty then none
  else
    let mag : ℚ := (digitsToNat intAndRest.1 : ℚ) +
      (digitsToNat fracDigits : ℚ) / (10 : ℚ) ^ fracDigits.length
    some (if signAndRest.1 then -mag else mag)

/-- Left-pad a digit string with zeros to width six. -/
def pad6 (s : String) : String :=
  String.mk (List.replicate (6 - s.length) '0') ++ s

/-- Fixed-point rendering of a scaled nonnegative integer m as the
decimal string for m / 10^6 with exactly six fraction digits. -/
def fixedRender (m : ℕ) : String :=
  toString (m / 1000000) ++ "." ++ pad6 (toString (m % 1000000))

/-- Number.prototype.toFixed(6) as a string, NaN included: NaN renders
as "NaN"; otherwise the sign is taken out first and the magnitude is
rounded to the nearest multiple of 10^-6, ties up, per ECMA-262. -/
def jsToFixed6 : JsNum → String
  | none => "NaN"
  | some q =>
    if q < 0 then "-" ++ fixedRender (⌊(-q) * 1000000 + 1 / 2⌋).toNat
    else fixedRender (⌊q * 1000000 + 1 / 2⌋).toNat

/-- A DEX quote at the string level, with the fields the mock helpers of
defi-aggregator.ts populate (the nested tokenIn and tokenOut objects are
flattened into the four address and amount fields). -/
structure StrQuote where
  dex : String
  tokenInAddr : String
  tokenInAmount : String
  tokenOutAddr : String
  expectedAmount : String
  priceImpact : String
deriving DecidableEq

instance : Inhabited StrQuote := ⟨⟨"", "", "", "", "", ""⟩⟩

/-- getHeliSwapQuote (defi-aggregator.ts, lines 468-479): a hard-coded
mock that always returns a quote, with expectedAmount the string
(parseFloat(amount) * 0.98).toFixed(6); a non-numeric amount therefore
produces the output string "NaN", never a thrown error. -/
def getHeliSwapQuote (tokenIn tokenOut amount : String) : StrQuote :=
  { dex := "HeliSwap",
    tokenInAddr := tokenIn,
    tokenInAmount := amount,
    tokenOutAddr := tokenOut,
    expectedAmount := jsToFixed6 (jsMul (jsParseFloat amount) (some (98 / 100))),
    priceImpact := "0.1%" }

/-- getPangolinQuote (defi-aggregator.ts, lines 481-492): the same mock
shape with multiplier 0.97 and price impact "0.2%". -/
def getPangolinQuote (tokenIn tokenOut amount : String) : StrQuote :=
  { dex := "Pangolin",
    tokenInAddr := tokenIn,
    tokenInAmount := amount,
    tokenOutAddr := tokenOut,
    expectedAmount := jsToFixed6 (jsMul (jsParseFloat amount) (some (97 / 100))),
    priceImpact := "0.2%" }

/-- String-level sort comparator of findBestRate: parseFloat both
expected amounts, descending (order among NaN amounts unspecified in
JavaScript, kept in place here). -/
def strQuoteGe (a b : StrQuote) : Prop :=
  jsLeB (jsParseFloat b.expectedAmount) (jsParseFloat a.expectedAmount) = true

instance : DecidableRel strQuoteGe :=
  fun a b => inferInstanceAs
    (Decidable (jsLeB (jsParseFloat b.expectedAmount) (jsParseFloat a.expectedAmount) = true))

/-- String-level result record of findBestRate: averageRate and savings
are the toFixed(6) strings the source stores. -/
structure FullBestRate where
  bestQuote : StrQuote
  allQuotes : List StrQuote
  averageRate : String
  savings : String
  dexCount : ℕ
deriving DecidableEq

/-- DeFiAggregator.findBestRate at the string level, with the two mock
quote helpers inlined as the second and third settled outcome: only the
SaucerSwap outcome (the one live call, null on failure) is a parameter;
the HeliSwap and Pangolin outcomes are always fulfilled, by the shape of
the mock helpers. Arithmetic on the parsed amounts is NaN-propagating. -/
def findBestRateFull (saucer : Option StrQuote) (tokenIn tokenOut amount : String) :
    Except String FullBestRate :=
  let outcomes : List (Option StrQuote) :=
    [saucer,
     some (getHeliSwapQuote tokenIn tokenOut amount),
     some (getPangolinQuote tokenIn tokenOut amount)]
  let validQuotes := outcomes.filterMap id
  match validQuotes with
  | [] => .error "Failed to find best rate: No valid quotes found from any DEX"
  | q :: qs =>
    let sorted := List.insertionSort strQuoteGe (q :: qs)
    let bestQuote := sorted.headI
    let averageRate :=
      jsDiv (sorted.foldl (fun acc p => jsAdd acc (jsParseFloat p.expectedAmount)) (some 0))
        (some (sorted.length : ℚ))
    .ok { bestQuote := bestQuote,
          allQuotes := sorted,
          averageRate := jsToFixed6 averageRate,
          savings := jsToFixed6 (jsSub (jsParseFloat bestQuote.expectedAmount) averageRate),
          dexCount := sorted.length }

/-- The quote record built by SaucerSwapTools.getQuote, reduced to the
output-side numeric fields the specification talks about: the raw
amounts in integer units and the formatUnits values (the rational a
decimal rendering with the token precision denotes). -/
structure SwapQuoteResult where
  amountOutWei : ℕ
  amountOutMinWei : ℤ
  expectedAmount : ℚ
  minimumAmount : ℚ
  slippageTolerance : ℚ
deriving DecidableEq

/-- SaucerSwapTools.getQuote (lines 105-160 of saucerswap-tools.ts),
parametrized by the output amount the router call getAmountsOut returned
(an external collaborator; a uint, hence a natural number) and by the
output token precision: amountOutMin is
amountOut * BigInt(Math.floor((100 - slippageTolerance) * 100)) / BigInt(10000)
with Math.floor as the rational floor and BigInt division truncating
towards zero; expectedAmount and minimumAmount are the formatUnits
renderings of the two raw amounts. -/
def getQuote (amountOut : ℕ) (outDecimals : ℕ) (slippageTolerance : ℚ) :
    SwapQuoteResult :=
  let amountOutMin : ℤ :=
    Int.tdiv ((amountOut : ℤ) * ⌊(100 - slippageTolerance) * 100⌋) 10000
  { amountOutWei := amountOut,
    amountOutMinWei := amountOutMin,
    expectedAmount := (amountOut : ℚ) / (10 : ℚ) ^ outDecimals,
    minimumAmount := (amountOutMin : ℚ) / (10 : ℚ) ^ outDecimals,
    slippageTolerance := slippageTolerance }

/-- A handler environment whose findBestRate handler is the aggregator
with all three settled quote outcomes failed, and whose other handlers
are unused stubs; used to instantiate the dispatch theorems. -/
def envAllQuotesFail : HandlerEnv BestRateResult :=
  { getBalance := fun _ => .error "unused",
    transferHBAR := fun _ _ _ _ => .error "unused",
    getQuote := fun _ _ _ _ => .error "unused",
    executeSwap := fun _ _ _ _ _ => .error "unused",
    addLiquidity := fun _ _ _ _ _ => .error "unused",
    createToken := fun _ _ _ _ _ => .error "unused",
    mintToken := fun _ _ _ => .error "unused",
    findBestRate := fun _ _ _ => findBestRate none none none,
    optimizePortfolio := fun _ _ => .error "unused" }

/-- A handler environment over string payloads whose balance handler
always throws "boom" and whose other handlers succeed; used to
instantiate the dispatch theorems at concrete inputs. -/
def envBalanceThrows : HandlerEnv String :=
  { getBalance := fun _ => .error "boom",
    transferHBAR := fun _ _ _ _ => .ok "",
    getQuote := fun _ _ _ _ => .ok "",
    executeSwap := fun _ _ _ _ _ => .ok "",
    addLiquidity := fun _ _ _ _ _ => .ok "",
    createToken := fun _ _ _ _ _ => .ok "",
    mintToken := fun _ _ _ => .ok "",
    findBestRate := fun _ _ _ => .ok "",
    optimizePortfolio := fun _ _ => .ok "" }

/-! Theorems. First the dispatcher, then the aggregator, then the
SaucerSwap quote arithmetic. -/

/-- The switch of the tools/call handler selects a handler exactly for
the names of the tool catalog. -/
theorem selectHandler_isSome_iff {α : Type} (env : HandlerEnv α) (name : String) :
    (selectHandler env name).isSome = true ↔ name ∈ toolCatalogNames := by
  have hnames : toolCatalogNames =
      ["hedera_get_balance", "hedera_transfer_hbar", "saucerswap_get_quote",
       "saucerswap_execute_swap", "saucerswap_add_liquidity", "hts_create_token",
       "hts_mint_token", "defi_find_best_rate", "defi_optimize_portfolio"] := rfl
  rw [hnames]
  unfold selectHandler
  split_ifs with h1 h2 h3 h4 h5 h6 h7 h8 h9 <;> simp_all

/-- C1: for every tools/call invocation of a known operation with a
valid argument mapping, if the selected handler throws (any downstream
failure), the dispatcher catches it at the dispatch boundary and returns
a failure result whose text carries the thrown message after the
"Error: " prefix; invoke is a total function into ordinary results, so
no exception propagates and no protocol-level fault is produced. -/
theorem invoke_catches_handler_error {α : Type} (env : HandlerEnv α)
    (name : String) (h : Smap → Except String α) (fields : Smap) (e : String)
    (hsel : selectHandler env name = some h) (herr : h fields = .error e) :
    invoke env name (.vObj fields) = .failure ("Error: " ++ e) := by
  unfold invoke dispatchCall
  simp [jsTruthy, jsTypeof, jsFields, hsel, herr]

/-- Witness for C1 at a concrete input: a balance handler that throws
"boom" yields the failure text "Error: boom". -/
theorem invoke_catches_handler_error_witness :
    invoke envBalanceThrows "hedera_get_balance" (.vObj []) = .failure "Error: boom" :=
  invoke_catches_handler_error envBalanceThrows "hedera_get_balance"
    (fun args => envBalanceThrows.getBalance (jsGet args "accountId")) [] "boom" rfl rfl

/-- C2: for every operation name outside the tool catalog and every
argument mapping, invoke fails with the unknown-tool error identifying
the name, regardless of the handlers. -/
theorem invoke_unknown_tool {α : Type} (env : HandlerEnv α) (name : String)
    (fields : Smap) (h : name ∉ toolCatalogNames) :
    invoke env name (.vObj fields) = .failure ("Error: Unknown tool: " ++ name) := by
  have hsel : selectHandler env name = none := by
    cases hs : selectHandler env name with
    | none => rfl
    | some f =>
      exact absurd ((selectHandler_isSome_iff env name).mp (by rw [hs]; rfl)) h
  unfold invoke dispatchCall
  rw [hsel]
  show InvocationResult.failure ("Error: " ++ ("Unknown tool: " ++ name)) =
    InvocationResult.failure ("Error: Unknown tool: " ++ name)
  rw [← String.append_assoc]
  rfl

/-- Witness for C2: invoking "nonexistent_tool" with the empty mapping
yields the unknown-tool failure, never a success. -/
theorem invoke_unknown_tool_witness :
    invoke envBalanceThrows "nonexistent_tool" (.vObj []) =
      .failure "Error: Unknown tool: nonexistent_tool" :=
  invoke_unknown_tool envBalanceThrows "nonexistent_tool" [] (by decide)

/-- C3: for every known operation name, invoke with an absent argument
value (null or undefined) or any non-object argument yields the
invalid-arguments failure; the result does not depend on the handlers,
so no handler is ever routed to. -/
theorem invoke_invalid_arguments {α : Type} (env : HandlerEnv α) (name : String)
    (args : JsVal) (_hname : name ∈ toolCatalogNames)
    (hargs : ∀ fields, args ≠ JsVal.vObj fields) :
    invoke env name args = .failure "Error: Invalid arguments provided" := by
  cases args with
  | vObj fields => exact absurd rfl (hargs fields)
  | vNull => rfl
  | vUndefined => rfl
  | vBool b => simp [invoke, dispatchCall, jsTruthy, jsTypeof]
  | vNum q => simp [invoke, dispatchCall, jsTruthy, jsTypeof]
  | vStr s => simp [invoke, dispatchCall, jsTruthy, jsTypeof]

/-- Witness for C3: a known name with a null argument value yields the
invalid-arguments failure. -/
theorem invoke_invalid_arguments_witness :
    invoke envBalanceThrows "hedera_get_balance" .vNull =
      .failure "Error: Invalid arguments provided" :=
  invoke_invalid_arguments envBalanceThrows "hedera_get_balance" .vNull
    (by decide) (fun fields h => by cases h)

/-- C4: the tools/list handler is a pure constant returning a fixed,
non-empty ordered catalog whose descriptor names are exactly the nine
operation names, and the tools/call switch routes to a handler exactly
for those names. -/
theorem listOperations_matches_dispatch :
    (∀ u v : Unit, listOperations u = listOperations v) ∧
    listOperations () ≠ [] ∧
    (listOperations ()).map ToolDescriptor.name =
      ["hedera_get_balance", "hedera_transfer_hbar", "saucerswap_get_quote",
       "saucerswap_execute_swap", "saucerswap_add_liquidity", "hts_create_token",
       "hts_mint_token", "defi_find_best_rate", "defi_optimize_portfolio"] ∧
    ∀ (α : Type) (env : HandlerEnv α) (name : String),
      (selectHandler env name).isSome = true ↔
        name ∈ (listOperations ()).map ToolDescriptor.name :=
  ⟨fun _ _ => rfl, by decide, rfl,
   fun α env name => selectHandler_isSome_iff env name⟩

/-! Aggregator lemmas. -/

/-- allQuotes of the success branch is the sorted survivor list. -/
theorem bestRateOf_allQuotes (q : DexQuote) (qs : List DexQuote) :
    (bestRateOf q qs).allQuotes = List.insertionSort quoteGe (q :: qs) := rfl

/-- bestQuote of the success branch is the first sorted survivor. -/
theorem bestRateOf_bestQuote (q : DexQuote) (qs : List DexQuote) :
    (bestRateOf q qs).bestQuote = (List.insertionSort quoteGe (q :: qs)).headI := rfl

/-- dexCount of the success branch is the survivor count. -/
theorem bestRateOf_dexCount (q : DexQuote) (qs : List DexQuote) :
    (bestRateOf q qs).dexCount = (List.insertionSort quoteGe (q :: qs)).length := rfl

/-- averageRate of the success branch, unfolded. -/
theorem bestRateOf_averageRate (q : DexQuote) (qs : List DexQuote) :
    (bestRateOf q qs).averageRate = toFixed6
      (((List.insertionSort quoteGe (q :: qs)).map DexQuote.expectedAmount).sum /
        ((List.insertionSort quoteGe (q :: qs)).length : ℚ)) := rfl

/-- savings of the success branch, unfolded. -/
theorem bestRateOf_savings (q : DexQuote) (qs : List DexQuote) :
    (bestRateOf q qs).savings = toFixed6
      ((List.insertionSort quoteGe (q :: qs)).headI.expectedAmount -
        ((List.insertionSort quoteGe (q :: qs)).map DexQuote.expectedAmount).sum /
          ((List.insertionSort quoteGe (q :: qs)).length : ℚ)) := rfl

/-- Sorting does not change the sum of the output amounts. -/
theorem insertionSort_sum_exp (q : DexQuote) (qs : List DexQuote) :
    ((List.insertionSort quoteGe (q :: qs)).map DexQuote.expectedAmount).sum =
      ((q :: qs).map DexQuote.expectedAmount).sum :=
  ((List.perm_insertionSort quoteGe (q :: qs)).map DexQuote.expectedAmount).sum_eq

/-- Sorting does not change the survivor count. -/
theorem insertionSort_length (q : DexQuote) (qs : List DexQuote) :
    (List.insertionSort quoteGe (q :: qs)).length = (q :: qs).length :=
  (List.perm_insertionSort quoteGe (q :: qs)).length_eq

/-- The chosen best quote dominates every survivor. -/
theorem bestRateOf_best_max (q : DexQuote) (qs : List DexQuote) :
    ∀ p ∈ q :: qs,
      p.expectedAmount ≤ (bestRateOf q qs).bestQuote.expectedAmount := by
  intro p hp
  have hmem : p ∈ List.insertionSort quoteGe (q :: qs) :=
    (List.perm_insertionSort quoteGe (q :: qs)).mem_iff.mpr hp
  have hsorted := List.sorted_insertionSort quoteGe (q :: qs)
  rw [bestRateOf_bestQuote]
  cases hS : List.insertionSort quoteGe (q :: qs) with
  | nil => rw [hS] at hmem; cases hmem
  | cons b rest =>
    rw [hS] at hmem hsorted
    simp only [List.headI]
    rcases List.mem_cons.mp hmem with h | h
    · rw [h]
    · exact (List.pairwise_cons.mp hsorted).1 p h

/-- The quote list of the result is sorted by descending output amount. -/
theorem bestRateOf_sorted (q : DexQuote) (qs : List DexQuote) :
    List.Sorted quoteGe (bestRateOf q qs).allQuotes := by
  rw [bestRateOf_allQuotes]
  exact List.sorted_insertionSort quoteGe (q :: qs)

/-- The unweighted mean of the survivors never exceeds the best output. -/
theorem mean_le_best (q : DexQuote) (qs : List DexQuote) :
    ((q :: qs).map DexQuote.expectedAmount).sum / ((q :: qs).length : ℚ) ≤
      (bestRateOf q qs).bestQuote.expectedAmount := by
  set B := (bestRateOf q qs).bestQuote.expectedAmount with hB
  have hall : ∀ x ∈ (q :: qs).map DexQuote.expectedAmount, x ≤ B := by
    intro x hx
    rcases List.mem_map.mp hx with ⟨p, hp, hpx⟩
    rw [← hpx]
    exact bestRateOf_best_max q qs p hp
  have hsum := List.sum_le_card_nsmul ((q :: qs).map DexQuote.expectedAmount) B hall
  have hlenpos : (0 : ℚ) < ((q :: qs).length : ℚ) := by
    have hp : 0 < (q :: qs).length := by simp
    exact_mod_cast hp
  rw [div_le_iff₀ hlenpos]
  calc ((q :: qs).map DexQuote.expectedAmount).sum
      ≤ ((q :: qs).map DexQuote.expectedAmount).length • B := hsum
    _ = ((q :: qs).length : ℚ) * B := by rw [List.length_map, nsmul_eq_mul]
    _ = B * ((q :: qs).length : ℚ) := mul_comm _ _

/-- Rounding to six decimals preserves nonnegativity. -/
theorem toFixed6_nonneg {x : ℚ} (h : 0 ≤ x) : 0 ≤ toFixed6 x := by
  unfold toFixed6
  rw [if_neg (not_lt.mpr h)]
  have hfl : (0 : ℤ) ≤ ⌊x * 1000000 + 1 / 2⌋ := Int.floor_nonneg.mpr (by positivity)
  have hq : (0 : ℚ) ≤ (⌊x * 1000000 + 1 / 2⌋ : ℚ) := by exact_mod_cast hfl
  exact div_nonneg hq (by norm_num)

/-- Evaluation rule for toFixed6 on a nonnegative rational whose scaled
value is bracketed by the integer n. -/
theorem toFixed6_eq {x : ℚ} {n : ℤ} (h : 0 ≤ x)
    (g : (n : ℚ) ≤ x * 1000000 + 1 / 2)
    (l : x * 1000000 + 1 / 2 < (n : ℚ) + 1) :
    toFixed6 x = (n : ℚ) / 1000000 := by
  unfold toFixed6
  rw [if_neg (not_lt.mpr h), Int.floor_eq_iff.mpr ⟨g, l⟩]

/-- bestRateOf on a single survivor: that quote is best, the average is
its output rounded to six decimals, and the savings are zero. -/
theorem bestRateOf_singleton (q : DexQuote) :
    bestRateOf q [] =
      { bestQuote := q, allQuotes := [q],
        averageRate := toFixed6 q.expectedAmount,
        savings := 0, dexCount := 1 } := by
  show ({ bestQuote := [q].headI, allQuotes := [q],
          averageRate := toFixed6 (([q].map DexQuote.expectedAmount).sum / ([q].length : ℚ)),
          savings := toFixed6 ([q].headI.expectedAmount -
            ([q].map DexQuote.expectedAmount).sum / ([q].length : ℚ)),
          dexCount := [q].length } : BestRateResult) = _
  have hz : toFixed6 0 = 0 := by
    have h := toFixed6_eq (x := 0) (n := 0) le_rfl (by norm_num) (by norm_num)
    simpa using h
  simp [hz]

/-- The sorted survivor list of the concrete 24.5 / 24.2 / 24.0 input is
already in descending order. -/
theorem insertionSort_concrete245 :
    List.insertionSort quoteGe
      [⟨"SaucerSwap", 49/2⟩, ⟨"HeliSwap", 121/5⟩, ⟨"Pangolin", 24⟩] =
      [⟨"SaucerSwap", 49/2⟩, ⟨"HeliSwap", 121/5⟩, ⟨"Pangolin", 24⟩] := by
  norm_num [List.insertionSort, List.orderedInsert, quoteGe]

/-- Full evaluation of the success branch on the concrete 24.5 / 24.2 /
24.0 survivors. -/
theorem bestRateOf_concrete245 :
    bestRateOf ⟨"SaucerSwap", 49/2⟩ [⟨"HeliSwap", 121/5⟩, ⟨"Pangolin", 24⟩] =
      { bestQuote := ⟨"SaucerSwap", 49/2⟩,
        allQuotes := [⟨"SaucerSwap", 49/2⟩, ⟨"HeliSwap", 121/5⟩, ⟨"Pangolin", 24⟩],
        averageRate := 24233333/1000000,
        savings := 266667/1000000,
        dexCount := 3 } := by
  have havg : toFixed6 (727/30) = (24233333 : ℚ)/1000000 := by
    have h := toFixed6_eq (x := 727/30) (n := 24233333)
      (by norm_num) (by norm_num) (by norm_num)
    simpa using h
  have hsav : toFixed6 (4/15) = (266667 : ℚ)/1000000 := by
    have h := toFixed6_eq (x := 4/15) (n := 266667)
      (by norm_num) (by norm_num) (by norm_num)
    simpa using h
  have hmean : (([⟨"SaucerSwap", 49/2⟩, ⟨"HeliSwap", 121/5⟩,
      (⟨"Pangolin", 24⟩ : DexQuote)]).map DexQuote.expectedAmount).sum /
      (([⟨"SaucerSwap", 49/2⟩, ⟨"HeliSwap", 121/5⟩,
        (⟨"Pangolin", 24⟩ : DexQuote)]).length : ℚ) = 727/30 := by
    norm_num
  have hdiff : (([⟨"SaucerSwap", 49/2⟩, ⟨"HeliSwap", 121/5⟩,
      (⟨"Pangolin", 24⟩ : DexQuote)]).headI.expectedAmount - 727/30) = 4/15 := by
    norm_num [List.headI]
  ext1
  case bestQuote =>
    rw [bestRateOf_bestQuote, insertionSort_concrete245]; rfl
  case allQuotes =>
    rw [bestRateOf_allQuotes, insertionSort_concrete245]
  case averageRate =>
    rw [bestRateOf_averageRate, insertionSort_concrete245, hmean, havg]
  case savings =>
    rw [bestRateOf_savings, insertionSort_concrete245, hmean, hdiff, hsav]
  case dexCount =>
    rw [bestRateOf_dexCount, insertionSort_concrete245]; rfl

/-- C5: on the concrete invocation where the three quote sources succeed
with outputs 24.5, 24.2 and 24.0, the chosen best quote is the 24.5 one
and the reported average is 24.233333 (the mean rounded to six
decimals); in general the surviving quotes are sorted by descending
output amount and the maximum survivor is returned as best. -/
theorem bestRate_concrete_and_descending :
    ((findBestRate (some ⟨"SaucerSwap", 49/2⟩) (some ⟨"HeliSwap", 121/5⟩)
        (some ⟨"Pangolin", 24⟩)).toOption.map
      (fun r => (r.bestQuote, r.averageRate)) =
      some (⟨"SaucerSwap", 49/2⟩, (24233333 : ℚ)/1000000)) ∧
    ∀ q1 q2 q3 r, findBestRate q1 q2 q3 = .ok r →
      List.Sorted quoteGe r.allQuotes ∧
      ∀ p ∈ validQuotes q1 q2 q3,
        p.expectedAmount ≤ r.bestQuote.expectedAmount := by
  constructor
  · have h0 : findBestRate (some ⟨"SaucerSwap", 49/2⟩) (some ⟨"HeliSwap", 121/5⟩)
        (some ⟨"Pangolin", 24⟩) =
        .ok (bestRateOf ⟨"SaucerSwap", 49/2⟩
          [⟨"HeliSwap", 121/5⟩, ⟨"Pangolin", 24⟩]) := rfl
    rw [h0, bestRateOf_concrete245]
    rfl
  · intro q1 q2 q3 r h
    unfold findBestRate at h
    cases hv : validQuotes q1 q2 q3 with
    | nil => rw [hv] at h; cases h
    | cons q qs =>
      rw [hv] at h
      injection h with h2
      subst h2
      exact ⟨bestRateOf_sorted q qs, bestRateOf_best_max q qs⟩

/-- Witness for C5 at the concrete input: the result list is sorted
descending and the 24.0 survivor does not beat the chosen best. -/
theorem bestRate_concrete_and_descending_witness :
    List.Sorted quoteGe
      (bestRateOf ⟨"SaucerSwap", 49/2⟩ [⟨"HeliSwap", 121/5⟩, ⟨"Pangolin", 24⟩]).allQuotes ∧
    (DexQuote.mk "Pangolin" 24).expectedAmount ≤
      (bestRateOf ⟨"SaucerSwap", 49/2⟩
        [⟨"HeliSwap", 121/5⟩, ⟨"Pangolin", 24⟩]).bestQuote.expectedAmount := by
  have h := bestRate_concrete_and_descending.2 (some ⟨"SaucerSwap", 49/2⟩)
    (some ⟨"HeliSwap", 121/5⟩) (some ⟨"Pangolin", 24⟩)
    (bestRateOf ⟨"SaucerSwap", 49/2⟩ [⟨"HeliSwap", 121/5⟩, ⟨"Pangolin", 24⟩]) rfl
  exact ⟨h.1, h.2 ⟨"Pangolin", 24⟩
    (List.Mem.tail _ (List.Mem.tail _ (List.Mem.head _)))⟩

/-- C6 counterexample: with exactly one surviving quote whose output
amount carries more than six decimal places (0.3333333333), the
operation succeeds, that quote is the best, but the reported average is
0.333333, which differs from the output amount --- so the reported
average does not always equal the single output. -/
theorem bestRate_single_rounding_cex :
    ((findBestRate (some ⟨"SaucerSwap", 3333333333/10000000000⟩) none none).toOption.map
      (fun r => (r.bestQuote.expectedAmount, r.averageRate)) =
      some ((3333333333 : ℚ)/10000000000, (333333 : ℚ)/1000000)) ∧
    (333333 : ℚ)/1000000 ≠ (3333333333 : ℚ)/10000000000 := by
  constructor
  · have h0 : findBestRate (some ⟨"SaucerSwap", 3333333333/10000000000⟩) none none =
        .ok (bestRateOf ⟨"SaucerSwap", 3333333333/10000000000⟩ []) := rfl
    have ht : toFixed6 ((3333333333 : ℚ)/10000000000) = (333333 : ℚ)/1000000 := by
      have h := toFixed6_eq (x := 3333333333/10000000000) (n := 333333)
        (by norm_num) (by norm_num) (by norm_num)
      simpa using h
    rw [h0, bestRateOf_singleton]
    show some ((3333333333 : ℚ)/10000000000, toFixed6 ((3333333333 : ℚ)/10000000000)) = _
    rw [ht]
  · norm_num

/-- C6 (amended): with exactly one surviving quote the operation does
not fail, that quote is the best (and the only listed quote), the
savings are zero, and the reported average is the output amount rounded
to six decimals --- equal to the output amount itself whenever it
carries at most six decimal places. -/
theorem bestRate_single_quote (q1 q2 q3 : Option DexQuote) (q : DexQuote)
    (h : validQuotes q1 q2 q3 = [q]) :
    findBestRate q1 q2 q3 = .ok
      { bestQuote := q, allQuotes := [q],
        averageRate := toFixed6 q.expectedAmount,
        savings := 0, dexCount := 1 } := by
  unfold findBestRate
  rw [h]
  exact congrArg Except.ok (bestRateOf_singleton q)

/-- Witness for C6 (amended) at a single surviving quote with output
9.8, where the rounded average coincides with the output. -/
theorem bestRate_single_quote_witness :
    findBestRate (some ⟨"HeliSwap", 49/5⟩) none none = .ok
      { bestQuote := ⟨"HeliSwap", 49/5⟩, allQuotes := [⟨"HeliSwap", 49/5⟩],
        averageRate := toFixed6 ((49 : ℚ)/5),
        savings := 0, dexCount := 1 } :=
  bestRate_single_quote (some ⟨"HeliSwap", 49/5⟩) none none ⟨"HeliSwap", 49/5⟩ rfl

/-- C7: when all three settled quote outcomes fail, findBestRate fails
with the wrapped no-valid-quotes message, and through the dispatcher the
invocation yields an ordinary failure result carrying that message ---
no exception passes the dispatch boundary, invoke being total. -/
theorem bestRate_all_fail_dispatch :
    findBestRate none none none =
      .error "Failed to find best rate: No valid quotes found from any DEX" ∧
    ∀ (env : HandlerEnv BestRateResult) (fields : Smap),
      env.findBestRate = (fun _ _ _ => findBestRate none none none) →
      invoke env "defi_find_best_rate" (.vObj fields) =
        .failure "Error: Failed to find best rate: No valid quotes found from any DEX" := by
  refine ⟨rfl, ?_⟩
  intro env fields h
  unfold invoke dispatchCall selectHandler
  simp only [jsTruthy, jsTypeof, jsFields, h]
  rfl

/-- Witness for C7: the dispatcher with the all-sources-fail aggregator
plugged in returns the failure result on a concrete call. -/
theorem bestRate_all_fail_dispatch_witness :
    invoke envAllQuotesFail "defi_find_best_rate" (.vObj []) =
      .failure "Error: Failed to find best rate: No valid quotes found from any DEX" :=
  bestRate_all_fail_dispatch.2 envAllQuotesFail [] rfl

/-- C9: every successful findBestRate result reports as savings the best
output minus the mean of the surviving outputs, rounded to six decimals,
and because the best is the maximum survivor this figure is never
negative. -/
theorem bestRate_savings_formula :
    ∀ q1 q2 q3 r, findBestRate q1 q2 q3 = .ok r →
      r.savings = toFixed6 (r.bestQuote.expectedAmount -
        ((validQuotes q1 q2 q3).map DexQuote.expectedAmount).sum /
          ((validQuotes q1 q2 q3).length : ℚ)) ∧
      0 ≤ r.savings := by
  intro q1 q2 q3 r h
  unfold findBestRate at h
  cases hv : validQuotes q1 q2 q3 with
  | nil => rw [hv] at h; cases h
  | cons q qs =>
    rw [hv] at h
    injection h with h2
    subst h2
    constructor
    · rw [bestRateOf_savings, bestRateOf_bestQuote,
        insertionSort_sum_exp, insertionSort_length]
    · rw [bestRateOf_savings]
      apply toFixed6_nonneg
      rw [insertionSort_sum_exp, insertionSort_length]
      have hm := mean_le_best q qs
      rw [bestRateOf_bestQuote] at hm
      linarith

/-- Witness for C9 at the concrete 24.5 / 24.2 / 24.0 invocation:
savings is 0.266667 and nonnegative. -/
theorem bestRate_savings_formula_witness :
    ((266667 : ℚ)/1000000 =
      toFixed6 ((49 : ℚ)/2 -
        ((validQuotes (some ⟨"SaucerSwap", 49/2⟩) (some ⟨"HeliSwap", 121/5⟩)
            (some ⟨"Pangolin", 24⟩)).map DexQuote.expectedAmount).sum /
          ((validQuotes (some ⟨"SaucerSwap", 49/2⟩) (some ⟨"HeliSwap", 121/5⟩)
            (some ⟨"Pangolin", 24⟩)).length : ℚ))) ∧
    (0 : ℚ) ≤ (266667 : ℚ)/1000000 :=
  bestRate_savings_formula (some ⟨"SaucerSwap", 49/2⟩) (some ⟨"HeliSwap", 121/5⟩)
    (some ⟨"Pangolin", 24⟩)
    { bestQuote := ⟨"SaucerSwap", 49/2⟩,
      allQuotes := [⟨"SaucerSwap", 49/2⟩, ⟨"HeliSwap", 121/5⟩, ⟨"Pangolin", 24⟩],
      averageRate := 24233333/1000000, savings := 266667/1000000, dexCount := 3 }
    (by rw [show findBestRate (some ⟨"SaucerSwap", 49/2⟩) (some ⟨"HeliSwap", 121/5⟩)
          (some ⟨"Pangolin", 24⟩) =
        .ok (bestRateOf ⟨"SaucerSwap", 49/2⟩ [⟨"HeliSwap", 121/5⟩, ⟨"Pangolin", 24⟩])
        from rfl, bestRateOf_concrete245])

/-- C8: the HeliSwap and Pangolin helpers are hard-coded mocks that
always fulfil --- even for a non-numeric amount, where the expected
amount is the string "NaN" --- so every best-rate run keeps at least
those two quotes: the operation always succeeds with a DEX count of at
least two, and the no-valid-quotes failure branch is unreachable. -/
theorem mock_quotes_always_fulfil :
    (∀ (s : Option StrQuote) (tokenIn tokenOut amount : String),
      ∃ r, findBestRateFull s tokenIn tokenOut amount = .ok r ∧ 2 ≤ r.dexCount) ∧
    (getHeliSwapQuote "0.0.1" "0.0.2" "not-a-number").expectedAmount = "NaN" ∧
    (getPangolinQuote "0.0.1" "0.0.2" "not-a-number").expectedAmount = "NaN" := by
  refine ⟨?_, rfl, rfl⟩
  intro s tokenIn tokenOut amount
  cases s with
  | none =>
    refine ⟨_, rfl, ?_⟩
    show 2 ≤ (List.insertionSort strQuoteGe
      [getHeliSwapQuote tokenIn tokenOut amount,
       getPangolinQuote tokenIn tokenOut amount]).length
    rw [(List.perm_insertionSort strQuoteGe _).length_eq]
    simp
  | some q =>
    refine ⟨_, rfl, ?_⟩
    show 2 ≤ (List.insertionSort strQuoteGe
      [q, getHeliSwapQuote tokenIn tokenOut amount,
       getPangolinQuote tokenIn tokenOut amount]).length
    rw [(List.perm_insertionSort strQuoteGe _).length_eq]
    simp

/-- C10: for a slippage tolerance between 0 and 100, the raw minimum
output of a SaucerSwap quote is the raw output times the floored scaled
slippage factor, divided by 10000 in integer arithmetic, and therefore
the minimum amount of the result never exceeds its expected amount. -/
theorem getQuote_min_le_expected (a d : ℕ) (s : ℚ)
    (g : 0 ≤ s) (l : s ≤ 100) :
    (getQuote a d s).amountOutMinWei =
      Int.tdiv ((a : ℤ) * ⌊(100 - s) * 100⌋) 10000 ∧
    (getQuote a d s).minimumAmount ≤ (getQuote a d s).expectedAmount := by
  constructor
  · rfl
  · show ((Int.tdiv ((a : ℤ) * ⌊(100 - s) * 100⌋) 10000 : ℤ) : ℚ) / (10 : ℚ) ^ d ≤
      (a : ℚ) / (10 : ℚ) ^ d
    have hk0 : (0 : ℤ) ≤ ⌊(100 - s) * 100⌋ := by
      apply Int.floor_nonneg.mpr
      nlinarith
    have hk1 : ⌊(100 - s) * 100⌋ ≤ 10000 := by
      have hx : (100 - s) * 100 ≤ (10000 : ℚ) := by nlinarith
      have h2 := (Int.floor_le ((100 - s) * 100)).trans hx
      exact_mod_cast h2
    have ha0 : (0 : ℤ) ≤ (a : ℤ) := Int.natCast_nonneg a
    have hnum0 : (0 : ℤ) ≤ (a : ℤ) * ⌊(100 - s) * 100⌋ := mul_nonneg ha0 hk0
    have hle : Int.tdiv ((a : ℤ) * ⌊(100 - s) * 100⌋) 10000 ≤ (a : ℤ) := by
      rw [Int.tdiv_eq_ediv hnum0 (by norm_num)]
      calc ((a : ℤ) * ⌊(100 - s) * 100⌋) / 10000
          ≤ ((a : ℤ) * 10000) / 10000 :=
            Int.ediv_le_ediv (by norm_num) (mul_le_mul_of_nonneg_left hk1 ha0)
        _ = (a : ℤ) := Int.mul_ediv_cancel _ (by norm_num)
    have hc : ((Int.tdiv ((a : ℤ) * ⌊(100 - s) * 100⌋) 10000 : ℤ) : ℚ) ≤ ((a : ℤ) : ℚ) := by
      exact_mod_cast hle
    have hden : (0 : ℚ) < (10 : ℚ) ^ d := by positivity
    calc ((Int.tdiv ((a : ℤ) * ⌊(100 - s) * 100⌋) 10000 : ℤ) : ℚ) / (10 : ℚ) ^ d
        ≤ ((a : ℤ) : ℚ) / (10 : ℚ) ^ d :=
          (div_le_div_iff_of_pos_right hden).mpr hc
      _ = (a : ℚ) / (10 : ℚ) ^ d := by norm_num

/-- Witness for C10 at a concrete quote: one unit of an output token
with six decimals and the default 0.5 percent slippage tolerance. -/
theorem getQuote_min_le_expected_witness :
    (getQuote 1000000 6 (1/2)).amountOutMinWei =
      Int.tdiv (((1000000 : ℕ) : ℤ) * ⌊((100 : ℚ) - 1/2) * 100⌋) 10000 ∧
    (getQuote 1000000 6 (1/2)).minimumAmount ≤ (getQuote 1000000 6 (1/2)).expectedAmount :=
  getQuote_min_le_expected 1000000 6 (1/2) (by norm_num) (by norm_num)

end AyaWallet
